import Mathlib

/-!
Verification of the randorgpy repository: a Python client for the
random.org JSON-RPC API. The repository holds three source files:
`randorgpy/main.py` (class `RandomOrgAPI` with `__init__` and
`send_request`), `randord.py` (a standalone `RandomOrgAPI` with the same
`__init__`/`send_request` plus eight wrapper methods), and
`src/basic_api.py` (class `BasicApi`, a subclass of the
`randorgpy.RandomOrgAPI`, with the same eight wrapper methods).

Python values that flow through the client (JSON bodies, params dicts)
are modelled by the inductive type `Json` below; Python dict lookup
`d[k]` is modelled by `Json.item`, which fails with `keyError` on a
missing key and `typeError` on a non-dict receiver, exactly as CPython
does. The HTTP layer (`requests.post`) is a parameter: a function from
endpoint, timeout and payload to either a transport exception or a
decoded response body.
-/

/-- A model of the Python/JSON values the client handles: `none_` is
Python `None`, `int_`/`float_`/`bool_`/`str_` are the scalar types,
`arr` a list, and `obj` a dict as an ordered association list. -/
inductive Json where
  | none_ : Json
  | int_ : Int → Json
  | float_ : Rat → Json
  | bool_ : Bool → Json
  | str_ : String → Json
  | arr : List Json → Json
  | obj : List (String × Json) → Json

/-- The Python exceptions that the unwrapping code in `send_request` can
raise and does not catch: `keyError` when a dict lacks the requested
key, `typeError` when subscripting a non-dict value. -/
inductive PyExn where
  | keyError : PyExn
  | typeError : PyExn
deriving DecidableEq, Repr

/-- The exceptions that `requests.post` can raise, as distinguished by
the three `except` clauses of `send_request`:
`requests.exceptions.Timeout`, `requests.exceptions.RequestException`,
and any other `Exception`. -/
inductive TransportExn where
  | timeout : TransportExn
  | requestException : TransportExn
  | otherException : TransportExn
deriving DecidableEq, Repr

/-- Python dict subscription `d[k]`: on an `obj`, return the value at
the first matching key or raise `KeyError`; on any non-dict value raise
`TypeError` (CPython: "'X' object is not subscriptable"). -/
def Json.item : Json → String → Except PyExn Json
  | .obj kvs, k =>
    match kvs.find? (fun p => p.1 == k) with
    | some p => .ok p.2
    | none => .error .keyError
  | _, _ => .error .typeError

/-- The list of keys of a dict value (empty for non-dicts); used to
state that an envelope has exactly a given key set. -/
def Json.keys : Json → List String
  | .obj kvs => kvs.map Prod.fst
  | _ => []

/-- The attributes set by `RandomOrgAPI.__init__` (identical in
`randorgpy/main.py` and `randord.py`): `self.api_key`,
`self.end_point`, `self.timeout` (seconds, as passed to
`requests.post`), `self.return_metadata`, `self.id`. -/
structure Config where
  api_key : String
  end_point : String
  timeout : Int
  return_metadata : Bool
  id : Int
deriving DecidableEq, Repr

/-- Default of the `end_point` argument of `__init__`. -/
def defaultEndPoint : String := "https://api.random.org/json-rpc/4/invoke"

/-- Default of the `timeout` argument of `__init__` (in seconds, the
unit `requests.post` gives its `timeout` argument). -/
def defaultTimeout : Int := 10

/-- Default of the `return_metadata` argument of `__init__`. -/
def defaultReturnMetadata : Bool := false

/-- Default of the `id` argument of `__init__`. -/
def defaultId : Int := 42

/-- Source method `RandomOrgAPI.__init__` with every argument supplied: each argument
is stored verbatim on the instance, with no validation. -/
def RandomOrgAPI.init (api_key end_point : String) (timeout : Int)
    (return_metadata : Bool) (id : Int) : Config :=
  { api_key, end_point, timeout, return_metadata, id }

/-- Source method `RandomOrgAPI(api_key)`: construction with every optional argument
left at its default. -/
def RandomOrgAPI.mkDefault (api_key : String) : Config :=
  RandomOrgAPI.init api_key defaultEndPoint defaultTimeout
    defaultReturnMetadata defaultId

/-- The stored timeout converted to milliseconds (the source stores
seconds, the unit of the `timeout` argument of `requests.post`). -/
def Config.timeoutMs (cfg : Config) : Int := cfg.timeout * 1000

/-- The HTTP layer: given the endpoint, the timeout (seconds) and the
JSON-encoded payload, either raise a transport exception or return the
decoded response body (`response.json()`). `send_request` is verified
for every such function. -/
def Transport : Type := String → Int → Json → Except TransportExn Json

/-- The request payload built at the top of `send_request`:
`{"jsonrpc": "2.0", "method": method, "params": params, "id": self.id}`. -/
def payload (cfg : Config) (method : String) (params : Json) : Json :=
  .obj [("jsonrpc", .str_ "2.0"), ("method", .str_ method),
        ("params", params), ("id", .int_ cfg.id)]

namespace Randorgpy

/-- Source method `RandomOrgAPI.send_request` of `randorgpy/main.py`: build the
payload, POST it; each of the three `except` clauses prints and
`return None` (modelled `.ok .none_`); on success, in metadata mode
return `response.json()` whole, otherwise return
`response.json()["result"]` for `getUsage` and
`response.json()["result"]["random"]["data"]` for every other method,
with the key lookups raising (uncaught) on a missing path. -/
def send_request (cfg : Config) (t : Transport) (method : String)
    (params : Json) : Except PyExn Json :=
  match t cfg.end_point cfg.timeout (payload cfg method params) with
  | .error _ => .ok .none_
  | .ok body =>
    if cfg.return_metadata then .ok body
    else if method == "getUsage" then body.item "result"
    else do
      let r ← body.item "result"
      let rr ← r.item "random"
      rr.item "data"

end Randorgpy

namespace Randord

/-- Source method `RandomOrgAPI.send_request` of `randord.py`, textually identical to
the one in `randorgpy/main.py`. -/
def send_request (cfg : Config) (t : Transport) (method : String)
    (params : Json) : Except PyExn Json :=
  match t cfg.end_point cfg.timeout (payload cfg method params) with
  | .error _ => .ok .none_
  | .ok body =>
    if cfg.return_metadata then .ok body
    else if method == "getUsage" then body.item "result"
    else do
      let r ← body.item "result"
      let rr ← r.item "random"
      rr.item "data"

/-- The `parameters` dict built by `RandomOrgAPI.generate_integers`. -/
def generate_integers.parameters (cfg : Config) (n minimum maximum : Int)
    (replacement : Bool) (base : Int) : Json :=
  .obj [("apiKey", .str_ cfg.api_key), ("n", .int_ n),
        ("min", .int_ minimum), ("max", .int_ maximum),
        ("replacement", .bool_ replacement), ("base", .int_ base)]

/-- Source method `RandomOrgAPI.generate_integers` (defaults `replacement=True`,
`base=10`). -/
def generate_integers (cfg : Config) (t : Transport) (n minimum maximum : Int)
    (replacement : Bool) (base : Int) : Except PyExn Json :=
  send_request cfg t "generateIntegers"
    (generate_integers.parameters cfg n minimum maximum replacement base)

/-- The `parameters` dict built by
`RandomOrgAPI.generate_integer_sequence`; the `length`, `minimum`,
`maximum`, `replacement` and `base` arguments may each be a scalar or a
list (Python `Union` types), so they are passed as `Json` values. -/
def generate_integer_sequence.parameters (cfg : Config) (n : Int)
    (length minimum maximum replacement base : Json) : Json :=
  .obj [("apiKey", .str_ cfg.api_key), ("n", .int_ n),
        ("length", length), ("min", minimum), ("max", maximum),
        ("replacement", replacement), ("base", base)]

/-- Source method `RandomOrgAPI.generate_integer_sequence`. -/
def generate_integer_sequence (cfg : Config) (t : Transport) (n : Int)
    (length minimum maximum replacement base : Json) : Except PyExn Json :=
  send_request cfg t "generateIntegerSequences"
    (generate_integer_sequence.parameters cfg n length minimum maximum
      replacement base)

/-- The `parameters` dict built by
`RandomOrgAPI.generate_decimal_fractions`. -/
def generate_decimal_fractions.parameters (cfg : Config)
    (n decimal_places : Int) (replacement : Bool) : Json :=
  .obj [("apiKey", .str_ cfg.api_key), ("n", .int_ n),
        ("decimalPlaces", .int_ decimal_places),
        ("replacement", .bool_ replacement)]

/-- Source method `RandomOrgAPI.generate_decimal_fractions` (default
`replacement=True`). -/
def generate_decimal_fractions (cfg : Config) (t : Transport)
    (n decimal_places : Int) (replacement : Bool) : Except PyExn Json :=
  send_request cfg t "generateDecimalFractions"
    (generate_decimal_fractions.parameters cfg n decimal_places replacement)

/-- The `parameters` dict built by `RandomOrgAPI.generate_gaussian`;
`mean` and `std` are Python floats, modelled as rationals. -/
def generate_gaussian.parameters (cfg : Config) (n : Int) (mean std : Rat)
    (significant_digits : Int) : Json :=
  .obj [("apiKey", .str_ cfg.api_key), ("n", .int_ n),
        ("mean", .float_ mean), ("stdDev", .float_ std),
        ("significantDigits", .int_ significant_digits)]

/-- Source method `RandomOrgAPI.generate_gaussian`. -/
def generate_gaussian (cfg : Config) (t : Transport) (n : Int)
    (mean std : Rat) (significant_digits : Int) : Except PyExn Json :=
  send_request cfg t "generateGaussians"
    (generate_gaussian.parameters cfg n mean std significant_digits)

/-- The `parameters` dict built by `RandomOrgAPI.generate_strings`. -/
def generate_strings.parameters (cfg : Config) (n length : Int)
    (characters : String) (replacement : Bool) : Json :=
  .obj [("apiKey", .str_ cfg.api_key), ("n", .int_ n),
        ("length", .int_ length), ("characters", .str_ characters),
        ("replacement", .bool_ replacement)]

/-- Source method `RandomOrgAPI.generate_strings` (default `replacement=True`). -/
def generate_strings (cfg : Config) (t : Transport) (n length : Int)
    (characters : String) (replacement : Bool) : Except PyExn Json :=
  send_request cfg t "generateStrings"
    (generate_strings.parameters cfg n length characters replacement)

/-- The `parameters` dict built by `RandomOrgAPI.generate_uuids`. -/
def generate_uuids.parameters (cfg : Config) (n : Int) : Json :=
  .obj [("apiKey", .str_ cfg.api_key), ("n", .int_ n)]

/-- Source method `RandomOrgAPI.generate_uuids`. -/
def generate_uuids (cfg : Config) (t : Transport) (n : Int) :
    Except PyExn Json :=
  send_request cfg t "generateUUIDs" (generate_uuids.parameters cfg n)

/-- The `parameters` dict built by `RandomOrgAPI.generate_blobs`. -/
def generate_blobs.parameters (cfg : Config) (n size : Int)
    (fmt : String) : Json :=
  .obj [("apiKey", .str_ cfg.api_key), ("n", .int_ n),
        ("size", .int_ size), ("format", .str_ fmt)]

/-- Source method `RandomOrgAPI.generate_blobs` (default `fmt="base64"`). -/
def generate_blobs (cfg : Config) (t : Transport) (n size : Int)
    (fmt : String) : Except PyExn Json :=
  send_request cfg t "generateBlobs" (generate_blobs.parameters cfg n size fmt)

/-- The `parameters` dict built by `RandomOrgAPI.get_usage`. -/
def get_usage.parameters (cfg : Config) : Json :=
  .obj [("apiKey", .str_ cfg.api_key)]

/-- Source method `RandomOrgAPI.get_usage`. -/
def get_usage (cfg : Config) (t : Transport) : Except PyExn Json :=
  send_request cfg t "getUsage" (get_usage.parameters cfg)

end Randord

namespace BasicApi

/-- The `parameters` dict built by `BasicApi.generate_integers` in
`src/basic_api.py`. -/
def generate_integers.parameters (cfg : Config) (n minimum maximum : Int)
    (replacement : Bool) (base : Int) : Json :=
  .obj [("apiKey", .str_ cfg.api_key), ("n", .int_ n),
        ("min", .int_ minimum), ("max", .int_ maximum),
        ("replacement", .bool_ replacement), ("base", .int_ base)]

/-- Source method `BasicApi.generate_integers`; `self.send_request` resolves to
the inherited `randorgpy` `RandomOrgAPI.send_request`. -/
def generate_integers (cfg : Config) (t : Transport) (n minimum maximum : Int)
    (replacement : Bool) (base : Int) : Except PyExn Json :=
  Randorgpy.send_request cfg t "generateIntegers"
    (generate_integers.parameters cfg n minimum maximum replacement base)

/-- The `parameters` dict built by `BasicApi.generate_integer_sequence`. -/
def generate_integer_sequence.parameters (cfg : Config) (n : Int)
    (length minimum maximum replacement base : Json) : Json :=
  .obj [("apiKey", .str_ cfg.api_key), ("n", .int_ n),
        ("length", length), ("min", minimum), ("max", maximum),
        ("replacement", replacement), ("base", base)]

/-- Source method `BasicApi.generate_integer_sequence`. -/
def generate_integer_sequence (cfg : Config) (t : Transport) (n : Int)
    (length minimum maximum replacement base : Json) : Except PyExn Json :=
  Randorgpy.send_request cfg t "generateIntegerSequences"
    (generate_integer_sequence.parameters cfg n length minimum maximum
      replacement base)

/-- The `parameters` dict built by `BasicApi.generate_decimal_fractions`. -/
def generate_decimal_fractions.parameters (cfg : Config)
    (n decimal_places : Int) (replacement : Bool) : Json :=
  .obj [("apiKey", .str_ cfg.api_key), ("n", .int_ n),
        ("decimalPlaces", .int_ decimal_places),
        ("replacement", .bool_ replacement)]

/-- Source method `BasicApi.generate_decimal_fractions`. -/
def generate_decimal_fractions (cfg : Config) (t : Transport)
    (n decimal_places : Int) (replacement : Bool) : Except PyExn Json :=
  Randorgpy.send_request cfg t "generateDecimalFractions"
    (generate_decimal_fractions.parameters cfg n decimal_places replacement)

/-- The `parameters` dict built by `BasicApi.generate_gaussian`. -/
def generate_gaussian.parameters (cfg : Config) (n : Int) (mean std : Rat)
    (significant_digits : Int) : Json :=
  .obj [("apiKey", .str_ cfg.api_key), ("n", .int_ n),
        ("mean", .float_ mean), ("stdDev", .float_ std),
        ("significantDigits", .int_ significant_digits)]

/-- Source method `BasicApi.generate_gaussian`. -/
def generate_gaussian (cfg : Config) (t : Transport) (n : Int)
    (mean std : Rat) (significant_digits : Int) : Except PyExn Json :=
  Randorgpy.send_request cfg t "generateGaussians"
    (generate_gaussian.parameters cfg n mean std significant_digits)

/-- The `parameters` dict built by `BasicApi.generate_strings`. -/
def generate_strings.parameters (cfg : Config) (n length : Int)
    (characters : String) (replacement : Bool) : Json :=
  .obj [("apiKey", .str_ cfg.api_key), ("n", .int_ n),
        ("length", .int_ length), ("characters", .str_ characters),
        ("replacement", .bool_ replacement)]

/-- Source method `BasicApi.generate_strings`. -/
def generate_strings (cfg : Config) (t : Transport) (n length : Int)
    (characters : String) (replacement : Bool) : Except PyExn Json :=
  Randorgpy.send_request cfg t "generateStrings"
    (generate_strings.parameters cfg n length characters replacement)

/-- The `parameters` dict built by `BasicApi.generate_uuids`. -/
def generate_uuids.parameters (cfg : Config) (n : Int) : Json :=
  .obj [("apiKey", .str_ cfg.api_key), ("n", .int_ n)]

/-- Source method `BasicApi.generate_uuids`. -/
def generate_uuids (cfg : Config) (t : Transport) (n : Int) :
    Except PyExn Json :=
  Randorgpy.send_request cfg t "generateUUIDs" (generate_uuids.parameters cfg n)

/-- The `parameters` dict built by `BasicApi.generate_blobs`. -/
def generate_blobs.parameters (cfg : Config) (n size : Int)
    (fmt : String) : Json :=
  .obj [("apiKey", .str_ cfg.api_key), ("n", .int_ n),
        ("size", .int_ size), ("format", .str_ fmt)]

/-- Source method `BasicApi.generate_blobs`. -/
def generate_blobs (cfg : Config) (t : Transport) (n size : Int)
    (fmt : String) : Except PyExn Json :=
  Randorgpy.send_request cfg t "generateBlobs"
    (generate_blobs.parameters cfg n size fmt)

/-- The `parameters` dict built by `BasicApi.get_usage`. -/
def get_usage.parameters (cfg : Config) : Json :=
  .obj [("apiKey", .str_ cfg.api_key)]

/-- Source method `BasicApi.get_usage`. -/
def get_usage (cfg : Config) (t : Transport) : Except PyExn Json :=
  Randorgpy.send_request cfg t "getUsage" (get_usage.parameters cfg)

end BasicApi

namespace Randord

/-- One call a caller can place on a `randord.py` `RandomOrgAPI`
instance: either `send_request` directly or one of the eight wrapper
methods, with its arguments. -/
inductive Call where
  | sendRequest (method : String) (params : Json) : Call
  | generateIntegers (n minimum maximum : Int) (replacement : Bool)
      (base : Int) : Call
  | generateIntegerSequence (n : Int)
      (length minimum maximum replacement base : Json) : Call
  | generateDecimalFractions (n decimal_places : Int)
      (replacement : Bool) : Call
  | generateGaussian (n : Int) (mean std : Rat)
      (significant_digits : Int) : Call
  | generateStrings (n length : Int) (characters : String)
      (replacement : Bool) : Call
  | generateUUIDs (n : Int) : Call
  | generateBlobs (n size : Int) (fmt : String) : Call
  | getUsage : Call

/-- The JSON-RPC method string each call passes to `send_request`. -/
def Call.method : Call → String
  | .sendRequest m _ => m
  | .generateIntegers _ _ _ _ _ => "generateIntegers"
  | .generateIntegerSequence _ _ _ _ _ _ => "generateIntegerSequences"
  | .generateDecimalFractions _ _ _ => "generateDecimalFractions"
  | .generateGaussian _ _ _ _ => "generateGaussians"
  | .generateStrings _ _ _ _ => "generateStrings"
  | .generateUUIDs _ => "generateUUIDs"
  | .generateBlobs _ _ _ => "generateBlobs"
  | .getUsage => "getUsage"

/-- The params dict each call passes to `send_request` (for wrappers,
built by the method's `parameters` dict from the instance state). -/
def Call.params (cfg : Config) : Call → Json
  | .sendRequest _ p => p
  | .generateIntegers n mn mx r b =>
      generate_integers.parameters cfg n mn mx r b
  | .generateIntegerSequence n l mn mx r b =>
      generate_integer_sequence.parameters cfg n l mn mx r b
  | .generateDecimalFractions n d r =>
      generate_decimal_fractions.parameters cfg n d r
  | .generateGaussian n m s d => generate_gaussian.parameters cfg n m s d
  | .generateStrings n l c r => generate_strings.parameters cfg n l c r
  | .generateUUIDs n => generate_uuids.parameters cfg n
  | .generateBlobs n s f => generate_blobs.parameters cfg n s f
  | .getUsage => get_usage.parameters cfg

/-- The outbound request envelope a call produces from instance state
`cfg`: the payload `send_request` builds for the call's method and
params. -/
def Call.envelope (cfg : Config) (c : Call) : Json :=
  payload cfg c.method (c.params cfg)

/-- State-passing semantics of one method call: the resulting instance
attributes paired with the returned value. None of the source methods
assigns to `self`, so each call's resulting attribute state is its
input state. -/
def exec (t : Transport) (cfg : Config) : Call → Config × Except PyExn Json
  | .sendRequest m p => (cfg, send_request cfg t m p)
  | .generateIntegers n mn mx r b => (cfg, generate_integers cfg t n mn mx r b)
  | .generateIntegerSequence n l mn mx r b =>
      (cfg, generate_integer_sequence cfg t n l mn mx r b)
  | .generateDecimalFractions n d r =>
      (cfg, generate_decimal_fractions cfg t n d r)
  | .generateGaussian n m s d => (cfg, generate_gaussian cfg t n m s d)
  | .generateStrings n l c r => (cfg, generate_strings cfg t n l c r)
  | .generateUUIDs n => (cfg, generate_uuids cfg t n)
  | .generateBlobs n s f => (cfg, generate_blobs cfg t n s f)
  | .getUsage => (cfg, get_usage cfg t)

/-- Run a sequence of calls on one instance, threading the attribute
state; returns the final state and the list of returned values. -/
def run (t : Transport) (cfg : Config) : List Call → Config × List (Except PyExn Json)
  | [] => (cfg, [])
  | c :: cs =>
    let s := exec t cfg c
    let rest := run t s.1 cs
    (rest.1, s.2 :: rest.2)

/-- The outbound envelopes produced by a sequence of calls, each built
from the instance state at the moment of that call. -/
def runEnvelopes (t : Transport) (cfg : Config) : List Call → List Json
  | [] => []
  | c :: cs => Call.envelope cfg c :: runEnvelopes t (exec t cfg c).1 cs

/-- Every call is exactly `send_request` at its method string and its
params dict; in particular the envelope it hands the transport is
`Call.envelope`. -/
theorem exec_eq_send_request (t : Transport) (cfg : Config) (c : Call) :
    exec t cfg c = (cfg, send_request cfg t c.method (c.params cfg)) := by
  cases c <;> rfl

end Randord

/-- Helper: on transport success, `randorgpy` `send_request` reduces to
its mode- and method-dependent unwrapping of the decoded body. -/
theorem randorgpy_send_request_ok (cfg : Config) (t : Transport)
    (method : String) (params body : Json)
    (hok : t cfg.end_point cfg.timeout (payload cfg method params) =
      Except.ok body) :
    Randorgpy.send_request cfg t method params =
      (if cfg.return_metadata then Except.ok body
      else if method == "getUsage" then body.item "result"
      else do
        let r ← body.item "result"
        let rr ← r.item "random"
        rr.item "data") := by
  unfold Randorgpy.send_request
  rw [hok]

/-- Helper: on transport failure, `randorgpy` `send_request` returns
Python `None`. -/
theorem randorgpy_send_request_err (cfg : Config) (t : Transport)
    (method : String) (params : Json) (exn : TransportExn)
    (herr : t cfg.end_point cfg.timeout (payload cfg method params) =
      Except.error exn) :
    Randorgpy.send_request cfg t method params = Except.ok Json.none_ := by
  unfold Randorgpy.send_request
  rw [herr]

/-- Helper: on transport success, `randord` `send_request` reduces to
its mode- and method-dependent unwrapping of the decoded body. -/
theorem randord_send_request_ok (cfg : Config) (t : Transport)
    (method : String) (params body : Json)
    (hok : t cfg.end_point cfg.timeout (payload cfg method params) =
      Except.ok body) :
    Randord.send_request cfg t method params =
      (if cfg.return_metadata then Except.ok body
      else if method == "getUsage" then body.item "result"
      else do
        let r ← body.item "result"
        let rr ← r.item "random"
        rr.item "data") := by
  unfold Randord.send_request
  rw [hok]

/-- Helper: on transport failure, `randord` `send_request` returns
Python `None`. -/
theorem randord_send_request_err (cfg : Config) (t : Transport)
    (method : String) (params : Json) (exn : TransportExn)
    (herr : t cfg.end_point cfg.timeout (payload cfg method params) =
      Except.error exn) :
    Randord.send_request cfg t method params = Except.ok Json.none_ := by
  unfold Randord.send_request
  rw [herr]

/-- C1: in compact mode (`return_metadata = False`), on transport
success, `send_request` returns exactly the decoded body's
`result.random.data` value for every method other than `getUsage`, and
exactly the body's `result` value for `getUsage` (in both
`randorgpy/main.py` and `randord.py`). -/
theorem C1_compact_unwrap (cfg : Config) (t : Transport) (method : String)
    (params body : Json)
    (hmeta : cfg.return_metadata = false)
    (hok : t cfg.end_point cfg.timeout (payload cfg method params) =
      Except.ok body) :
    (∀ r rr d, method ≠ "getUsage" →
      body.item "result" = Except.ok r →
      r.item "random" = Except.ok rr →
      rr.item "data" = Except.ok d →
      Randorgpy.send_request cfg t method params = Except.ok d ∧
      Randord.send_request cfg t method params = Except.ok d) ∧
    (∀ r, method = "getUsage" →
      body.item "result" = Except.ok r →
      Randorgpy.send_request cfg t method params = Except.ok r ∧
      Randord.send_request cfg t method params = Except.ok r) := by
  constructor
  · intro r rr d hne h1 h2 h3
    rw [randorgpy_send_request_ok cfg t method params body hok,
        randord_send_request_ok cfg t method params body hok]
    simp [hmeta, hne, h1, h2, h3, Bind.bind, Except.bind]
  · intro r hu h1
    rw [randorgpy_send_request_ok cfg t method params body hok,
        randord_send_request_ok cfg t method params body hok]
    simp [hmeta, hu, h1]

/-- Witness for C1: a concrete transport returning a well-formed body;
the compact-mode result is exactly the `result.random.data` value. -/
theorem C1_compact_unwrap_witness :
    Randorgpy.send_request (RandomOrgAPI.mkDefault "key")
      (fun _ _ _ => Except.ok (Json.obj [("result",
        Json.obj [("random", Json.obj [("data", Json.arr [Json.int_ 7])])])]))
      "generateIntegers" (Json.obj []) = Except.ok (Json.arr [Json.int_ 7]) :=
  ((C1_compact_unwrap (RandomOrgAPI.mkDefault "key")
    (fun _ _ _ => Except.ok (Json.obj [("result",
      Json.obj [("random", Json.obj [("data", Json.arr [Json.int_ 7])])])]))
    "generateIntegers" (Json.obj [])
    (Json.obj [("result",
      Json.obj [("random", Json.obj [("data", Json.arr [Json.int_ 7])])])])
    rfl rfl).1
    (Json.obj [("random", Json.obj [("data", Json.arr [Json.int_ 7])])])
    (Json.obj [("data", Json.arr [Json.int_ 7])]) (Json.arr [Json.int_ 7])
    (by decide) rfl rfl rfl).1

/-- Counterexample to C2 as stated: with a transport that succeeds but
returns a body with no `result` key (compact mode, method
`generateIntegers`), `send_request` does not produce a defined
malformed-response error value — the key lookup raises `KeyError`,
which no handler catches, so the call ends in an unhandled exception. -/
theorem C2_counterexample :
    Randorgpy.send_request (RandomOrgAPI.mkDefault "key")
      (fun _ _ _ => Except.ok (Json.obj [])) "generateIntegers"
      (Json.obj []) = Except.error PyExn.keyError := rfl

/-- C2 amended: in compact mode with a non-`getUsage` method, when the
transport succeeds but the `result.random.data` lookup fails, the
uncaught `KeyError`/`TypeError` propagates out of `send_request`: the
call neither returns `None` (the transport-failure signal) nor any
other value. -/
theorem C2_missing_keys_raise (cfg : Config) (t : Transport)
    (method : String) (params body : Json) (e : PyExn)
    (hmeta : cfg.return_metadata = false)
    (hne : method ≠ "getUsage")
    (hok : t cfg.end_point cfg.timeout (payload cfg method params) =
      Except.ok body)
    (hfail : (do
        let r ← body.item "result"
        let rr ← r.item "random"
        rr.item "data" : Except PyExn Json) = Except.error e) :
    Randorgpy.send_request cfg t method params = Except.error e ∧
    ∀ v, Randorgpy.send_request cfg t method params ≠ Except.ok v := by
  have h : Randorgpy.send_request cfg t method params = Except.error e := by
    rw [randorgpy_send_request_ok cfg t method params body hok]
    simp only [hmeta, if_false, Bool.false_eq_true]
    rw [if_neg (by simp [hne])]
    exact hfail
  exact ⟨h, fun v hv => by rw [h] at hv; exact Except.noConfusion hv⟩

/-- Witness for the amended C2: a concrete empty-object body makes the
`result` lookup raise `KeyError`, which propagates. -/
theorem C2_missing_keys_raise_witness :
    Randorgpy.send_request (RandomOrgAPI.mkDefault "key")
      (fun _ _ _ => Except.ok (Json.obj [])) "generateIntegers"
      (Json.obj []) = Except.error PyExn.keyError ∧
    ∀ v, Randorgpy.send_request (RandomOrgAPI.mkDefault "key")
      (fun _ _ _ => Except.ok (Json.obj [])) "generateIntegers"
      (Json.obj []) ≠ Except.ok v :=
  C2_missing_keys_raise (RandomOrgAPI.mkDefault "key")
    (fun _ _ _ => Except.ok (Json.obj [])) "generateIntegers"
    (Json.obj []) (Json.obj []) PyExn.keyError rfl (by decide) rfl rfl

/-- C3: if the HTTP POST raises any transport exception (timeout,
request exception, or any other exception), `send_request` returns the
single failure value `None` and no exception propagates (both
`randorgpy/main.py` and `randord.py`). -/
theorem C3_transport_error_none (cfg : Config) (t : Transport)
    (method : String) (params : Json) (exn : TransportExn)
    (herr : t cfg.end_point cfg.timeout (payload cfg method params) =
      Except.error exn) :
    Randorgpy.send_request cfg t method params = Except.ok Json.none_ ∧
    Randord.send_request cfg t method params = Except.ok Json.none_ :=
  ⟨randorgpy_send_request_err cfg t method params exn herr,
   randord_send_request_err cfg t method params exn herr⟩

/-- Witness for C3: a transport that times out yields the `None`
result. -/
theorem C3_transport_error_none_witness :
    Randorgpy.send_request (RandomOrgAPI.mkDefault "key")
      (fun _ _ _ => Except.error TransportExn.timeout) "generateIntegers"
      (Json.obj []) = Except.ok Json.none_ ∧
    Randord.send_request (RandomOrgAPI.mkDefault "key")
      (fun _ _ _ => Except.error TransportExn.timeout) "generateIntegers"
      (Json.obj []) = Except.ok Json.none_ :=
  C3_transport_error_none (RandomOrgAPI.mkDefault "key")
    (fun _ _ _ => Except.error TransportExn.timeout) "generateIntegers"
    (Json.obj []) TransportExn.timeout rfl

/-- C4: in verbose mode (`return_metadata = True`), on transport
success, `send_request` returns the entire decoded response envelope
unchanged, for every method including `getUsage` (both modules). -/
theorem C4_verbose_returns_envelope (cfg : Config) (t : Transport)
    (method : String) (params body : Json)
    (hmeta : cfg.return_metadata = true)
    (hok : t cfg.end_point cfg.timeout (payload cfg method params) =
      Except.ok body) :
    Randorgpy.send_request cfg t method params = Except.ok body ∧
    Randord.send_request cfg t method params = Except.ok body := by
  rw [randorgpy_send_request_ok cfg t method params body hok,
      randord_send_request_ok cfg t method params body hok]
  simp [hmeta]

/-- Witness for C4: a verbose-mode client returns the whole envelope,
here for `getUsage`. -/
theorem C4_verbose_returns_envelope_witness :
    Randorgpy.send_request
      (RandomOrgAPI.init "key" defaultEndPoint 10 true 42)
      (fun _ _ _ => Except.ok (Json.obj [("result", Json.int_ 3)]))
      "getUsage" (Json.obj [])
      = Except.ok (Json.obj [("result", Json.int_ 3)]) ∧
    Randord.send_request
      (RandomOrgAPI.init "key" defaultEndPoint 10 true 42)
      (fun _ _ _ => Except.ok (Json.obj [("result", Json.int_ 3)]))
      "getUsage" (Json.obj [])
      = Except.ok (Json.obj [("result", Json.int_ 3)]) :=
  C4_verbose_returns_envelope (RandomOrgAPI.init "key" defaultEndPoint 10 true 42)
    (fun _ _ _ => Except.ok (Json.obj [("result", Json.int_ 3)])) "getUsage"
    (Json.obj []) (Json.obj [("result", Json.int_ 3)]) rfl rfl

/-- Helper: each call leaves the instance attributes unchanged (none of
the source methods assigns to `self`). -/
theorem exec_fst (t : Transport) (cfg : Config) (c : Randord.Call) :
    (Randord.exec t cfg c).1 = cfg := by
  cases c <;> rfl

/-- Helper: the id field of the payload `send_request` builds is always
the configured `self.id`. -/
theorem payload_item_id (cfg : Config) (method : String) (params : Json) :
    (payload cfg method params).item "id" = Except.ok (Json.int_ cfg.id) := rfl

/-- C5: across any sequence of calls (direct `send_request` or any
wrapper), every outbound envelope's id field equals the client's
configured request identifier, and the default identifier is 42. -/
theorem C5_request_id (t : Transport) (cfg : Config)
    (calls : List Randord.Call) :
    (∀ e ∈ Randord.runEnvelopes t cfg calls,
      e.item "id" = Except.ok (Json.int_ cfg.id)) ∧
    ∀ k, (RandomOrgAPI.mkDefault k).id = 42 := by
  refine ⟨?_, fun _ => rfl⟩
  induction calls with
  | nil => intro e he; cases he
  | cons c cs ih =>
    intro e he
    rw [Randord.runEnvelopes] at he
    rcases List.mem_cons.mp he with h | h
    · subst h
      exact payload_item_id cfg (Randord.Call.method c)
        (Randord.Call.params cfg c)
    · rw [exec_fst] at h
      exact ih e h

/-- Witness for C5: a concrete one-call sequence from a
default-constructed client; its envelope carries id 42. -/
theorem C5_request_id_witness :
    (Randord.Call.envelope (RandomOrgAPI.mkDefault "key")
      (Randord.Call.generateIntegers 5 1 10 true 10)).item "id" =
      Except.ok (Json.int_ 42) := by
  have h := (C5_request_id (fun _ _ _ => Except.ok Json.none_)
    (RandomOrgAPI.mkDefault "key")
    [Randord.Call.generateIntegers 5 1 10 true 10]).1
  exact h (Randord.Call.envelope (RandomOrgAPI.mkDefault "key")
    (Randord.Call.generateIntegers 5 1 10 true 10))
    (by rw [Randord.runEnvelopes]; exact List.mem_cons_self _ _)

/-- C6: each of the eight wrappers builds its params dict as exactly
the configured credential under `apiKey` plus the remote API's
documented field names, with the caller's values passed through
unmodified and unvalidated, and invokes `send_request` with its
documented method string; in particular
`generate_integers(n=5, minimum=1, maximum=10)` with the default
`replacement=True`, `base=10` produces exactly
`{apiKey, n: 5, min: 1, max: 10, replacement: true, base: 10}`. -/
theorem C6_wrapper_params (cfg : Config) (t : Transport)
    (n mn mx d ln sz sig : Int) (r : Bool) (b : Int) (mean std : Rat)
    (chars fmt : String) (lJ mnJ mxJ rJ bJ : Json) :
    Randord.generate_integers.parameters cfg 5 1 10 true 10 =
      Json.obj [("apiKey", .str_ cfg.api_key), ("n", .int_ 5),
        ("min", .int_ 1), ("max", .int_ 10),
        ("replacement", .bool_ true), ("base", .int_ 10)] ∧
    Randord.generate_integers cfg t n mn mx r b =
      Randord.send_request cfg t "generateIntegers"
        (Json.obj [("apiKey", .str_ cfg.api_key), ("n", .int_ n),
          ("min", .int_ mn), ("max", .int_ mx),
          ("replacement", .bool_ r), ("base", .int_ b)]) ∧
    Randord.generate_integer_sequence cfg t n lJ mnJ mxJ rJ bJ =
      Randord.send_request cfg t "generateIntegerSequences"
        (Json.obj [("apiKey", .str_ cfg.api_key), ("n", .int_ n),
          ("length", lJ), ("min", mnJ), ("max", mxJ),
          ("replacement", rJ), ("base", bJ)]) ∧
    Randord.generate_decimal_fractions cfg t n d r =
      Randord.send_request cfg t "generateDecimalFractions"
        (Json.obj [("apiKey", .str_ cfg.api_key), ("n", .int_ n),
          ("decimalPlaces", .int_ d), ("replacement", .bool_ r)]) ∧
    Randord.generate_gaussian cfg t n mean std sig =
      Randord.send_request cfg t "generateGaussians"
        (Json.obj [("apiKey", .str_ cfg.api_key), ("n", .int_ n),
          ("mean", .float_ mean), ("stdDev", .float_ std),
          ("significantDigits", .int_ sig)]) ∧
    Randord.generate_strings cfg t n ln chars r =
      Randord.send_request cfg t "generateStrings"
        (Json.obj [("apiKey", .str_ cfg.api_key), ("n", .int_ n),
          ("length", .int_ ln), ("characters", .str_ chars),
          ("replacement", .bool_ r)]) ∧
    Randord.generate_uuids cfg t n =
      Randord.send_request cfg t "generateUUIDs"
        (Json.obj [("apiKey", .str_ cfg.api_key), ("n", .int_ n)]) ∧
    Randord.generate_blobs cfg t n sz fmt =
      Randord.send_request cfg t "generateBlobs"
        (Json.obj [("apiKey", .str_ cfg.api_key), ("n", .int_ n),
          ("size", .int_ sz), ("format", .str_ fmt)]) ∧
    Randord.get_usage cfg t =
      Randord.send_request cfg t "getUsage"
        (Json.obj [("apiKey", .str_ cfg.api_key)]) :=
  ⟨rfl, rfl, rfl, rfl, rfl, rfl, rfl, rfl, rfl⟩

/-- C7: the outbound request body is an object with exactly the four
keys `jsonrpc`, `method`, `params`, `id`, holding the literal "2.0",
the method string, the params object, and the configured id. -/
theorem C7_envelope_exact (cfg : Config) (method : String) (params : Json) :
    (payload cfg method params).keys =
      ["jsonrpc", "method", "params", "id"] ∧
    (payload cfg method params).item "jsonrpc" =
      Except.ok (Json.str_ "2.0") ∧
    (payload cfg method params).item "method" =
      Except.ok (Json.str_ method) ∧
    (payload cfg method params).item "params" = Except.ok params ∧
    (payload cfg method params).item "id" =
      Except.ok (Json.int_ cfg.id) :=
  ⟨rfl, rfl, rfl, rfl, rfl⟩

/-- C8: the `BasicApi` subclass and the standalone `randord.py`
`RandomOrgAPI` are behaviourally equivalent: the two `send_request`
implementations agree on all inputs, and each of the eight wrappers of
either class builds the identical params dict and returns the identical
result for the same configuration and arguments. -/
theorem C8_basicapi_equivalent (cfg : Config) (t : Transport) (m : String)
    (p : Json) (n mn mx d ln sz sig : Int) (r : Bool) (b : Int)
    (mean std : Rat) (chars fmt : String) (lJ mnJ mxJ rJ bJ : Json) :
    Randorgpy.send_request cfg t m p = Randord.send_request cfg t m p ∧
    BasicApi.generate_integers.parameters cfg n mn mx r b =
      Randord.generate_integers.parameters cfg n mn mx r b ∧
    BasicApi.generate_integers cfg t n mn mx r b =
      Randord.generate_integers cfg t n mn mx r b ∧
    BasicApi.generate_integer_sequence.parameters cfg n lJ mnJ mxJ rJ bJ =
      Randord.generate_integer_sequence.parameters cfg n lJ mnJ mxJ rJ bJ ∧
    BasicApi.generate_integer_sequence cfg t n lJ mnJ mxJ rJ bJ =
      Randord.generate_integer_sequence cfg t n lJ mnJ mxJ rJ bJ ∧
    BasicApi.generate_decimal_fractions.parameters cfg n d r =
      Randord.generate_decimal_fractions.parameters cfg n d r ∧
    BasicApi.generate_decimal_fractions cfg t n d r =
      Randord.generate_decimal_fractions cfg t n d r ∧
    BasicApi.generate_gaussian.parameters cfg n mean std sig =
      Randord.generate_gaussian.parameters cfg n mean std sig ∧
    BasicApi.generate_gaussian cfg t n mean std sig =
      Randord.generate_gaussian cfg t n mean std sig ∧
    BasicApi.generate_strings.parameters cfg n ln chars r =
      Randord.generate_strings.parameters cfg n ln chars r ∧
    BasicApi.generate_strings cfg t n ln chars r =
      Randord.generate_strings cfg t n ln chars r ∧
    BasicApi.generate_uuids.parameters cfg n =
      Randord.generate_uuids.parameters cfg n ∧
    BasicApi.generate_uuids cfg t n = Randord.generate_uuids cfg t n ∧
    BasicApi.generate_blobs.parameters cfg n sz fmt =
      Randord.generate_blobs.parameters cfg n sz fmt ∧
    BasicApi.generate_blobs cfg t n sz fmt =
      Randord.generate_blobs cfg t n sz fmt ∧
    BasicApi.get_usage.parameters cfg = Randord.get_usage.parameters cfg ∧
    BasicApi.get_usage cfg t = Randord.get_usage cfg t :=
  ⟨rfl, rfl, rfl, rfl, rfl, rfl, rfl, rfl, rfl, rfl, rfl, rfl, rfl, rfl,
   rfl, rfl, rfl⟩

/-- C9: no operation mutates the client's configuration: after any
sequence of calls, the instance attribute state — and each individual
field — equals its value at construction. -/
theorem C9_config_unchanged (t : Transport) (cfg : Config)
    (calls : List Randord.Call) :
    (Randord.run t cfg calls).1 = cfg ∧
    (Randord.run t cfg calls).1.api_key = cfg.api_key ∧
    (Randord.run t cfg calls).1.end_point = cfg.end_point ∧
    (Randord.run t cfg calls).1.timeout = cfg.timeout ∧
    (Randord.run t cfg calls).1.return_metadata = cfg.return_metadata ∧
    (Randord.run t cfg calls).1.id = cfg.id := by
  have h : (Randord.run t cfg calls).1 = cfg := by
    induction calls with
    | nil => rfl
    | cons c cs ih =>
      show (Randord.run t (Randord.exec t cfg c).1 cs).1 = cfg
      rw [exec_fst]
      exact ih
  exact ⟨h, by rw [h], by rw [h], by rw [h], by rw [h], by rw [h]⟩

/-- C10: construction succeeds for every credential string (including
the empty string), stores the credential verbatim, and the omitted
optional arguments default to the canonical endpoint, a 10-second
(10000 ms) timeout, verbose mode off, and request id 42. -/
theorem C10_construction_defaults (api_key : String) :
    (RandomOrgAPI.mkDefault api_key).api_key = api_key ∧
    (RandomOrgAPI.mkDefault api_key).end_point =
      "https://api.random.org/json-rpc/4/invoke" ∧
    (RandomOrgAPI.mkDefault api_key).timeout = 10 ∧
    (RandomOrgAPI.mkDefault api_key).timeoutMs = 10000 ∧
    (RandomOrgAPI.mkDefault api_key).return_metadata = false ∧
    (RandomOrgAPI.mkDefault api_key).id = 42 :=
  ⟨rfl, rfl, rfl, rfl, rfl, rfl⟩
